import Mathlib

/-!
# Dashboard resource of the New Relic Terraform provider

A shallow embedding of `newrelic/resource_newrelic_dashboards.go`:
the struct builder, the struct reader and the four CRUD handlers, together
with the pieces of the Go runtime they lean on (dynamic `interface{}` values,
unchecked type assertions, `strconv.Atoi`).

Conventions of the embedding:

* a Go panic is the `error` side of `Except Panic`;
* a Go `error` result is `Option GoError` (`none` is `nil`);
* the `*schema.ResourceData` a handler mutates is passed in and handed back;
  `d.Get` reads an attribute through the type the schema declares for it;
* the remote API is a `Client` whose answers may depend on the calls made so
  far; every handler appends the calls it makes to that history;
* `log.Printf` lines have no effect on any of this and are left out.
-/

namespace Newrelic

/-! ## Go runtime: dynamic values and type assertions -/

/-- Dynamic value stored in a Go `interface{}`, as the configuration reader
hands them out: `nil`, `string`, `int`, `bool`, `[]interface{}` and
`map[string]interface{}`. -/
inductive Value where
  | nil
  | str (s : String)
  | int (n : Int)
  | bool (b : Bool)
  | list (xs : List Value)
  | map (kvs : List (String × Value))

/-- Reasons a handler can panic. -/
inductive Panic where
  | typeAssertion
  | nilDereference
  deriving DecidableEq, Repr

/-- Go map indexing `m[key]` on a `map[string]interface{}`: the stored value,
or the `nil` interface when the key is absent. -/
def mapIndex (m : List (String × Value)) (key : String) : Value :=
  match m.lookup key with
  | some v => v
  | none => Value.nil

/-- Unchecked assertion `v.(string)`. -/
def assertString : Value → Except Panic String
  | Value.str s => Except.ok s
  | _ => Except.error Panic.typeAssertion

/-- Unchecked assertion `v.([]interface{})`. -/
def assertSlice : Value → Except Panic (List Value)
  | Value.list xs => Except.ok xs
  | _ => Except.error Panic.typeAssertion

/-- Unchecked assertion `v.(map[string]interface{})`. -/
def assertMap : Value → Except Panic (List (String × Value))
  | Value.map kvs => Except.ok kvs
  | _ => Except.error Panic.typeAssertion

/-- A `for i, x := range xs { out[i] = body x }` loop filling a slice made
with `make(..., len(xs))`: positions are filled in order and the first panic
of the body aborts the loop. -/
def rangeFill {β : Type} (body : Value → Except Panic β) : List Value → Except Panic (List β)
  | [] => Except.ok []
  | x :: xs =>
    match body x with
    | Except.error p => Except.error p
    | Except.ok y =>
      match rangeFill body xs with
      | Except.error p => Except.error p
      | Except.ok ys => Except.ok (y :: ys)

/-! ## Go runtime: `strconv.Atoi` on a 64-bit platform -/

/-- The two failure kinds of `strconv` number parsing. -/
inductive NumError where
  | ErrSyntax
  | ErrRange
  deriving DecidableEq, Repr

/-- Largest `int` (64-bit). -/
def maxInt : Int := 9223372036854775807

/-- Smallest `int` (64-bit). -/
def minInt : Int := -9223372036854775808

/-- Largest `uint64`. -/
def maxUint64 : Nat := 18446744073709551615

/-- Conversion of a mathematical integer to `int` with two's complement
wrap-around. -/
def wrapInt (x : Int) : Int := (x + 9223372036854775808) % 18446744073709551616 - 9223372036854775808

/-- Byte test `'0' <= c && c <= '9'`. A character outside ASCII is encoded by
bytes that are all at least 0x80, so it fails the test exactly as each of its
bytes does. -/
def isDigitByte (c : Char) : Bool := decide (48 ≤ c.toNat) && decide (c.toNat ≤ 57)

/-- Digit loop of the fast path of `strconv.Atoi`:
`ch -= '0'; if ch > 9 { return 0, syntaxError }; n = n*10 + int(ch)`. -/
def atoiFastLoop : List Char → Int → Int × Option NumError
  | [], n => (n, none)
  | ch :: rest, n =>
    if isDigitByte ch then atoiFastLoop rest (wrapInt (n * 10 + ((ch.toNat : Int) - 48)))
    else (0, some NumError.ErrSyntax)

/-- Digit loop of `strconv.ParseUint(s, 10, 0)`. A byte that is not a decimal
digit is a syntax error (letters decode to a digit value of at least 10, which
base 10 rejects; an underscore is only accepted for base 0). Overflow of
`uint64` returns the maximum at once, without looking at the bytes that
follow. -/
def parseUintLoop : List Char → Nat → Nat × Option NumError
  | [], n => (n, none)
  | c :: rest, n =>
    if isDigitByte c then
      if maxUint64 / 10 + 1 ≤ n then (maxUint64, some NumError.ErrRange)
      else
        let n10 := n * 10
        let n1 := (n10 + (c.toNat - 48)) % 18446744073709551616
        if n1 < n10 ∨ maxUint64 < n1 then (maxUint64, some NumError.ErrRange)
        else parseUintLoop rest n1
    else (0, some NumError.ErrSyntax)

/-- Go `strconv.ParseUint(s, 10, 0)`. -/
def ParseUint (s : List Char) : Nat × Option NumError :=
  if s.isEmpty then (0, some NumError.ErrSyntax) else parseUintLoop s 0

/-- Go `strconv.ParseInt(s, 10, 0)`: optional sign, then `ParseUint`; a syntax
error gives 0, a value out of range gives the bound of matching sign. -/
def ParseInt (s : List Char) : Int × Option NumError :=
  match s with
  | [] => (0, some NumError.ErrSyntax)
  | c :: rest =>
    let neg := decide (c = '-')
    let body := if c = '+' ∨ c = '-' then rest else c :: rest
    match ParseUint body with
    | (_, some NumError.ErrSyntax) => (0, some NumError.ErrSyntax)
    | (un, _) =>
      let cutoff : Nat := 9223372036854775808
      if neg = false ∧ cutoff ≤ un then ((cutoff : Int) - 1, some NumError.ErrRange)
      else if neg = true ∧ cutoff < un then (-(cutoff : Int), some NumError.ErrRange)
      else (if neg then -(un : Int) else (un : Int), none)

/-- Go `strconv.Atoi(s)` with a 64-bit `int`: strings of 1 to 18 bytes take
the fast path, all others go through `ParseInt(s, 10, 0)`. The first component
is the returned `int`, the second the returned error. -/
def Atoi (s : String) : Int × Option NumError :=
  let sLen := s.utf8ByteSize
  if 0 < sLen ∧ sLen < 19 then
    match s.data with
    | [] => (0, some NumError.ErrSyntax)
    | c :: rest =>
      let signed := decide (c = '-') || decide (c = '+')
      let body := if signed then rest else c :: rest
      if signed ∧ body.length < 1 then (0, some NumError.ErrSyntax)
      else
        match atoiFastLoop body 0 with
        | (_, some e) => (0, some e)
        | (n, none) => (if c = '-' then wrapInt (-n) else n, none)
  else ParseInt s.data

/-- Canonical decimal rendering of an integer: a minus sign for a negative
number, then the digits without leading zeros (what `strconv.Itoa` prints). -/
def decimalString (n : Int) : String :=
  if n < 0 then "-" ++ Nat.repr n.natAbs else Nat.repr n.toNat

/-- Value of a run of decimal digits read after the value `n` (used to state
what the digit loops compute). -/
def digitsFold : List Char → Nat → Nat
  | [], n => n
  | c :: cs, n => digitsFold cs (n * 10 + (c.toNat - 48))

/-! ## API types of the client package

The client package declares these records, not the resource file; the
fields are the ones the resource code names, and a field the code never
assigns holds its Go zero value. -/

/-- Presentation block of a widget. -/
structure WidgetPresentation where
  Title : String
  Notes : String
  deriving DecidableEq, Repr

/-- Layout block of a widget (its extraction is commented out in the builder). -/
structure WidgetLayout where
  Width : Int
  Height : Int
  Row : Int
  Column : Int
  deriving DecidableEq, Repr

/-- One data entry of a widget. -/
structure WidgetData where
  Nrql : String
  deriving DecidableEq, Repr

/-- One widget of a dashboard. -/
structure DashboardWidget where
  Visualization : String
  Presentation : WidgetPresentation
  Data : List WidgetData
  Layout : WidgetLayout
  deriving DecidableEq, Repr

/-- Metadata block of a dashboard. -/
structure DashboardMetadata where
  Version : Int
  deriving DecidableEq, Repr

/-- Filter block of a dashboard (its assignment is commented out in the builder). -/
structure Filter where
  EventTypes : List String
  Attributes : List String
  deriving DecidableEq, Repr

/-- Dashboard detail object exchanged with the API. -/
structure GetDashboardDetail where
  ID : Int
  Title : String
  Icon : String
  Visibility : String
  Editable : String
  Metadata : DashboardMetadata
  Filter : Filter
  Widgets : List DashboardWidget
  deriving DecidableEq, Repr

/-- Request and response envelope around a dashboard detail. -/
structure GetDashboardResp where
  Dashboard : GetDashboardDetail
  deriving DecidableEq, Repr

/-- Go `error` values as the handlers see them: the client package's sentinel
`ErrNotFound`, or any other error. -/
inductive GoError where
  | ErrNotFound
  | other (msg : String)
  deriving DecidableEq, Repr

/-- One call made on the API client. -/
inductive ApiCall where
  | CreateDashboard (dashboard : GetDashboardResp)
  | GetDashboard (id : Int)
  | UpdateDashboard (id : Int) (dashboard : GetDashboardResp)
  | DeleteDashboard (id : Int)
  deriving DecidableEq, Repr

/-- The API client, a black box to the resource code. Each method receives the
calls made before it, so its answer may depend on them as a remote service
does. `CreateDashboard` and `UpdateDashboard` return a pointer (`none` is the
nil pointer) and an error; `GetDashboard` returns a detail by value and an
error; `DeleteDashboard` returns an error. -/
structure Client where
  CreateDashboard : List ApiCall → GetDashboardResp → Option GetDashboardResp × Option GoError
  GetDashboard : List ApiCall → Int → GetDashboardDetail × Option GoError
  UpdateDashboard : List ApiCall → Int → GetDashboardResp → Option GetDashboardResp × Option GoError
  DeleteDashboard : List ApiCall → Int → Option GoError

/-- The `meta interface{}` argument of a handler: the provider passes a
`*newrelic.Client`; anything else fails the assertion `meta.(*newrelic.Client)`. -/
inductive Meta where
  | client (c : Client)
  | other

/-! ## The framework's resource data

`d.Get` does not hand out what was written in the configuration as it stands:
it reads every attribute through the type the schema declares for it (source
lines 22-136). A primitive written under a `TypeString` attribute is decoded
to a string, an attribute that was left out reads as its `Default` or as the
zero value of its type, and a nested block none of whose attributes was set
reads as a nil element of its list. A value of a kind its declared type cannot
hold (a list under `title`, say) is refused by the framework's validation
before any handler runs; the readers below are completed there with the zero
value. -/

/-- The value was set (it is not the nil interface). -/
def Value.isSet : Value → Bool
  | Value.nil => false
  | _ => true

/-- Weak decoding of a primitive to a string, as the framework does for a
`TypeString` attribute: a string is kept, an int is printed in decimal, a bool
becomes "1" or "0"; nothing decodes to the empty string. -/
def weakString : Value → String
  | Value.str s => s
  | Value.int n => decimalString n
  | Value.bool b => if b then "1" else "0"
  | _ => ""

/-- Reading of a `TypeString` attribute with the given `Default` (nil when the
schema declares none): the configured value decoded to a string, the decoded
default when nothing was configured. -/
def readString (default : Value) : Value → Value
  | Value.nil => Value.str (weakString default)
  | v => Value.str (weakString v)

/-- Reading of a `TypeInt` attribute: 0 when nothing was configured. No code
of the resource reads such an attribute, and the decoding of other spellings
of an int is left as configured. -/
def readInt : Value → Value
  | Value.nil => Value.int 0
  | v => v

/-- Reading of a `TypeMap` attribute: the configured keys, each value decoded
to a string; the empty map when nothing was configured. -/
def readMap : Value → Value
  | Value.map kvs => Value.map (kvs.map (fun kv => (kv.1, Value.str (weakString kv.2))))
  | _ => Value.map []

/-- Reading of a `TypeList` attribute whose elements are read by `elem`: the
empty list when nothing was configured. -/
def readList (elem : Value → Value) : Value → Value
  | Value.list xs => Value.list (xs.map elem)
  | _ => Value.list []

/-- Reading of one `data` block (source lines 121-132): a map holding `nrql`
read as a string; a block in which `nrql` was not set reads as nil. -/
def readDataBlock : Value → Value
  | Value.map m =>
    if (mapIndex m "nrql").isSet then
      Value.map [("nrql", readString Value.nil (mapIndex m "nrql"))]
    else Value.nil
  | _ => Value.nil

/-- Reading of one `widgets` block (source lines 80-135): a map holding every
declared attribute read through its type; a block in which no attribute was
set reads as nil. -/
def readWidgetBlock : Value → Value
  | Value.map m =>
    if (mapIndex m "visualization").isSet || (mapIndex m "account_id").isSet
        || (mapIndex m "presentation").isSet || (mapIndex m "layout").isSet
        || (mapIndex m "data").isSet then
      Value.map
        [("visualization", readString Value.nil (mapIndex m "visualization")),
         ("account_id", readInt (mapIndex m "account_id")),
         ("presentation", readMap (mapIndex m "presentation")),
         ("layout", readMap (mapIndex m "layout")),
         ("data", readList readDataBlock (mapIndex m "data"))]
    else Value.nil
  | _ => Value.nil

/-- The `*schema.ResourceData` of one resource instance: the external id and,
by key, the attribute values as configured or stored (nil when left out). -/
structure ResourceData where
  id : String
  attrs : String → Value

/-- Framework `d.Get(key)`: the attribute read through its declared type
(source lines 22-136). `editable` and `owner_email` declare `Default: true`, a
bool under a string attribute, decoded like a configured bool. A key the
schema does not declare reads as nil. -/
def ResourceData.Get (d : ResourceData) (key : String) : Value :=
  if key = "title" then readString Value.nil (d.attrs key)
  else if key = "icon" then readString Value.nil (d.attrs key)
  else if key = "visibility" then readString Value.nil (d.attrs key)
  else if key = "editable" then readString (Value.bool true) (d.attrs key)
  else if key = "owner_email" then readString (Value.bool true) (d.attrs key)
  else if key = "id" then readInt (d.attrs key)
  else if key = "filter" then readMap (d.attrs key)
  else if key = "widgets" then readList readWidgetBlock (d.attrs key)
  else Value.nil

/-- Framework `d.Id()`. -/
def ResourceData.Id (d : ResourceData) : String := d.id

/-- Framework `d.SetId(v)`. -/
def ResourceData.SetId (d : ResourceData) (v : String) : ResourceData :=
  { d with id := v }

/-- Framework `d.Set(key, value)` for a string value under a declared string
key: the value is stored under the key, so later reads of the key give it;
nothing else changes. -/
def ResourceData.Set (d : ResourceData) (key : String) (value : String) : ResourceData :=
  { d with attrs := fun k => if k = key then Value.str value else d.attrs k }

/-- Modelled from the spec: `serializeIDs` is a helper of the provider package
defined outside `resource_newrelic_dashboards.go`. The spec gives the identity as "a single
integer id, serialized to/from a string for the framework's external id field"
with the example "id 7 → external id "7"": an id is rendered in decimal. The
handlers only ever pass a one-element list; on a longer list, about which the
spec is silent, the renderings are joined by a colon. -/
def serializeIDs (ids : List Int) : String :=
  String.intercalate ":" (ids.map decimalString)

/-! ## Struct builder and struct reader -/

/-- Body of the inner loop of `buildDashboardStruct` (source lines 167-170). -/
def buildWidgetData (widgetDataI : Value) : Except Panic WidgetData := do
  let widgetDataM ← assertMap widgetDataI
  let nrql ← assertString (mapIndex widgetDataM "nrql")
  pure { Nrql := nrql }

/-- Body of the outer loop of `buildDashboardStruct` (source lines 146-178).
The layout is never read: the widget keeps the zero layout. -/
def buildWidget (widgetI : Value) : Except Panic DashboardWidget := do
  let widgetM ← assertMap widgetI
  let presentationP ← assertMap (mapIndex widgetM "presentation")
  let title ← assertString (mapIndex presentationP "title")
  let notes ← assertString (mapIndex presentationP "notes")
  let presentationWidget : WidgetPresentation := { Title := title, Notes := notes }
  let widgetDataSet ← assertSlice (mapIndex widgetM "data")
  let dataWidget ← rangeFill buildWidgetData widgetDataSet
  let visualization ← assertString (mapIndex widgetM "visualization")
  pure { Visualization := visualization, Presentation := presentationWidget,
         Data := dataWidget, Layout := { Width := 0, Height := 0, Row := 0, Column := 0 } }

/-- Source `buildDashboardStruct` (lines 140-203). The id and the filter are
never assigned and keep their zero values; the metadata version is set to 1. -/
def buildDashboardStruct (d : ResourceData) : Except Panic GetDashboardResp := do
  let widgetSet ← assertSlice (d.Get "widgets")
  let widgets ← rangeFill buildWidget widgetSet
  let title ← assertString (d.Get "title")
  let icon ← assertString (d.Get "icon")
  let visibility ← assertString (d.Get "visibility")
  let editable ← assertString (d.Get "editable")
  let dashboard : GetDashboardResp :=
    { Dashboard :=
        { ID := 0, Title := title, Icon := icon, Visibility := visibility, Editable := editable,
          Metadata := { Version := 0 }, Filter := { EventTypes := [], Attributes := [] },
          Widgets := widgets } }
  let dashboard : GetDashboardResp :=
    { dashboard with Dashboard := { dashboard.Dashboard with Metadata := { Version := 1 } } }
  pure dashboard

/-- Source `readDashboardStruct` (lines 205-219): four `d.Set` calls, then
`return nil`. -/
def readDashboardStruct (dashboard : GetDashboardDetail) (d : ResourceData) :
    Option GoError × ResourceData :=
  let d := d.Set "title" dashboard.Title
  let d := d.Set "icon" dashboard.Icon
  let d := d.Set "visibility" dashboard.Visibility
  let d := d.Set "editable" dashboard.Editable
  (none, d)

/-! ## CRUD handlers -/

/-- What a handler leaves behind when it returns: the returned error, the
resource data and the calls made so far. A panic leaves nothing. -/
abbrev HandlerResult := Except Panic (Option GoError × ResourceData × List ApiCall)

/-- Source `resourceNewRelicDashboardRead` (lines 238-268). The error of
`strconv.Atoi` is dropped (`id, _ := ...`). -/
def resourceNewRelicDashboardRead (d : ResourceData) (meta : Meta) (calls : List ApiCall) :
    HandlerResult :=
  match meta with
  | Meta.other => Except.error Panic.typeAssertion
  | Meta.client client =>
    let id := (Atoi d.Id).1
    let (condition, err) := client.GetDashboard calls id
    let calls := calls ++ [ApiCall.GetDashboard id]
    match err with
    | some err =>
      if err = GoError.ErrNotFound then Except.ok (none, d.SetId "", calls)
      else Except.ok (some err, d, calls)
    | none =>
      let (r, d) := readDashboardStruct condition d
      Except.ok (r, d, calls)

/-- Source `resourceNewRelicDashboardCreate` (lines 221-236). Reading
`condition.Dashboard.ID` through a nil pointer returned without an error
panics. -/
def resourceNewRelicDashboardCreate (d : ResourceData) (meta : Meta) (calls : List ApiCall) :
    HandlerResult :=
  match meta with
  | Meta.other => Except.error Panic.typeAssertion
  | Meta.client client =>
    match buildDashboardStruct d with
    | Except.error p => Except.error p
    | Except.ok condition =>
      let (created, err) := client.CreateDashboard calls condition
      let calls := calls ++ [ApiCall.CreateDashboard condition]
      match err with
      | some err => Except.ok (some err, d, calls)
      | none =>
        match created with
        | none => Except.error Panic.nilDereference
        | some created =>
          let d := d.SetId (serializeIDs [created.Dashboard.ID])
          resourceNewRelicDashboardRead d meta calls

/-- Source `resourceNewRelicDashboardUpdate` (lines 270-294). The error of
`strconv.Atoi` is dropped; the first result of `UpdateDashboard` is dropped. -/
def resourceNewRelicDashboardUpdate (d : ResourceData) (meta : Meta) (calls : List ApiCall) :
    HandlerResult :=
  match meta with
  | Meta.other => Except.error Panic.typeAssertion
  | Meta.client client =>
    match buildDashboardStruct d with
    | Except.error p => Except.error p
    | Except.ok condition =>
      let id := (Atoi d.Id).1
      let condition : GetDashboardResp :=
        { condition with Dashboard := { condition.Dashboard with ID := id } }
      let (_, err) := client.UpdateDashboard calls id condition
      let calls := calls ++ [ApiCall.UpdateDashboard id condition]
      match err with
      | some err => Except.ok (some err, d, calls)
      | none => resourceNewRelicDashboardRead d meta calls

/-- Source `resourceNewRelicDashboardDelete` (lines 296-318). The error of
`strconv.Atoi` is dropped. -/
def resourceNewRelicDashboardDelete (d : ResourceData) (meta : Meta) (calls : List ApiCall) :
    HandlerResult :=
  match meta with
  | Meta.other => Except.error Panic.typeAssertion
  | Meta.client client =>
    let id := (Atoi d.Id).1
    let err := client.DeleteDashboard calls id
    let calls := calls ++ [ApiCall.DeleteDashboard id]
    match err with
    | some err => Except.ok (some err, d, calls)
    | none => Except.ok (none, d.SetId "", calls)

/-! ## The declared schema (source lines 22-136) -/

/-- Values accepted for `icon` (source line 34). -/
def iconValues : List String := ["none", "archive", "bar-chart", "line-chart", "bullseye", "user"]

/-- Values accepted for `visibility` (source line 39). -/
def visibilityValues : List String := ["owner", "all"]

/-- Values accepted for `editable` (source line 45). -/
def editableValues : List String := ["read_only", "editable_by_owner", "editable_by_all"]

/-- The value is a string. -/
def Value.isStr : Value → Bool
  | Value.str _ => true
  | _ => false

/-- The value is a string taken from the given list (`validation.StringInSlice`). -/
def stringInSlice (valid : List String) : Value → Bool
  | Value.str s => valid.contains s
  | _ => false

/-- An `Optional` attribute of `TypeString`: left out, or a string. -/
def optionalString : Value → Bool
  | Value.nil => true
  | Value.str _ => true
  | _ => false

/-- An `Optional` attribute of `TypeInt`: left out, or an int. -/
def optionalInt : Value → Bool
  | Value.nil => true
  | Value.int _ => true
  | _ => false

/-- An `Optional` attribute of `TypeMap`: left out, or a map of strings with
any keys, none required. -/
def optionalMap : Value → Bool
  | Value.nil => true
  | Value.map kvs => kvs.all (fun kv => kv.2.isStr)
  | _ => false

/-- An element of the `data` list (source lines 121-132): a block whose
`nrql` is optional. -/
def conformsData : Value → Bool
  | Value.map m => optionalString (mapIndex m "nrql")
  | _ => false

/-- An `Optional` list of `data` blocks. -/
def optionalDataList : Value → Bool
  | Value.nil => true
  | Value.list ds => ds.all conformsData
  | _ => false

/-- An element of the `widgets` list (source lines 80-135): every attribute
of the block is `Optional`. -/
def conformsWidget : Value → Bool
  | Value.map m =>
    optionalString (mapIndex m "visualization") && optionalInt (mapIndex m "account_id")
      && optionalMap (mapIndex m "presentation") && optionalMap (mapIndex m "layout")
      && optionalDataList (mapIndex m "data")
  | _ => false

/-- A list of schema-conforming widget blocks. -/
def conformsWidgetList : Value → Bool
  | Value.list ws => ws.all conformsWidget
  | _ => false

/-- A valid configuration, judged on the values as configured: a string
title, icon, visibility and editable from their enumerated sets, and a
schema-conforming widget list. -/
def validConfiguration (d : ResourceData) : Bool :=
  (d.attrs "title").isStr && stringInSlice iconValues (d.attrs "icon")
    && stringInSlice visibilityValues (d.attrs "visibility")
    && stringInSlice editableValues (d.attrs "editable")
    && conformsWidgetList (d.attrs "widgets")

/-! ## Shape the builder expects of the values it extracts -/

/-- A data entry carries a string `nrql`. -/
def dataEntryShaped : Value → Bool
  | Value.map m => (mapIndex m "nrql").isStr
  | _ => false

/-- The presentation is a map with a string `title` and a string `notes`. -/
def presentationShaped : Value → Bool
  | Value.map pm => (mapIndex pm "title").isStr && (mapIndex pm "notes").isStr
  | _ => false

/-- The data attribute is a list of shaped data entries. -/
def dataListShaped : Value → Bool
  | Value.list ds => ds.all dataEntryShaped
  | _ => false

/-- A widget is a map with a shaped presentation, a shaped data list and a
string visualization. -/
def widgetShaped : Value → Bool
  | Value.map wm =>
    presentationShaped (mapIndex wm "presentation") && dataListShaped (mapIndex wm "data")
      && (mapIndex wm "visualization").isStr
  | _ => false

/-- The widgets attribute is a list of shaped widgets. -/
def widgetListShaped : Value → Bool
  | Value.list ws => ws.all widgetShaped
  | _ => false

/-- Every value the builder extracts, as `d.Get` hands it out, is present with
the expected type. -/
def extractionShaped (d : ResourceData) : Bool :=
  widgetListShaped (d.Get "widgets") && (d.Get "title").isStr && (d.Get "icon").isStr
    && (d.Get "visibility").isStr && (d.Get "editable").isStr

/-- The same shape asked of the values as configured, before `d.Get` reads
them: every value the builder goes on to extract is written in the
configuration with the expected type. -/
def configuredShaped (d : ResourceData) : Bool :=
  widgetListShaped (d.attrs "widgets") && (d.attrs "title").isStr && (d.attrs "icon").isStr
    && (d.attrs "visibility").isStr && (d.attrs "editable").isStr

/-! ## Configurations on which the builder returns, stated on the configuration -/

/-- The configured value is a map holding the key. -/
def hasKey (key : String) : Value → Bool
  | Value.map kvs => (kvs.lookup key).isSome
  | _ => false

/-- The configured data block sets `nrql`. -/
def dataBlockSet : Value → Bool
  | Value.map m => (mapIndex m "nrql").isSet
  | _ => false

/-- Every configured data block sets `nrql` (no data list: no block). -/
def dataBlocksSet : Value → Bool
  | Value.list ds => ds.all dataBlockSet
  | _ => true

/-- The configured widget block has a presentation map holding the keys
"title" and "notes", and each of its data blocks sets `nrql`. -/
def widgetBuildable : Value → Bool
  | Value.map m =>
    hasKey "title" (mapIndex m "presentation") && hasKey "notes" (mapIndex m "presentation")
      && dataBlocksSet (mapIndex m "data")
  | _ => false

/-- Every configured widget block is buildable (no widget list: no block). -/
def configurationBuildable (d : ResourceData) : Bool :=
  match d.attrs "widgets" with
  | Value.list ws => ws.all widgetBuildable
  | _ => true

/-! ## Sample inputs -/

/-- Resource data with the given id, the four scalar attributes and widgets. -/
def sampleData (id title icon visibility editable : String) (widgets : Value) : ResourceData :=
  { id := id,
    attrs := fun k =>
      if k = "title" then Value.str title
      else if k = "icon" then Value.str icon
      else if k = "visibility" then Value.str visibility
      else if k = "editable" then Value.str editable
      else if k = "widgets" then widgets
      else Value.nil }

/-- A configured widget block that sets all five attributes. -/
def sampleWidget (visualization : String) (presentation : List (String × Value))
    (nrqls : List String) : Value :=
  Value.map
    [("visualization", Value.str visualization), ("account_id", Value.int 1),
     ("presentation", Value.map presentation), ("layout", Value.map []),
     ("data", Value.list (nrqls.map (fun q => Value.map [("nrql", Value.str q)])))]

/-- The configuration of the spec's example: title "Ops", no widgets. -/
def opsData (id : String) : ResourceData :=
  sampleData id "Ops" "bar-chart" "all" "editable_by_all" (Value.list [])

/-- A detail object with the given id and title. -/
def sampleDetail (id : Int) (title : String) : GetDashboardDetail :=
  { ID := id, Title := title, Icon := "bar-chart", Visibility := "all",
    Editable := "editable_by_all", Metadata := { Version := 1 },
    Filter := { EventTypes := [], Attributes := [] }, Widgets := [] }

/-- A client that answers every call the same way whatever came before. -/
def constClient (created : Option GetDashboardResp) (createErr : Option GoError)
    (got : GetDashboardDetail) (getErr updateErr deleteErr : Option GoError) : Client :=
  { CreateDashboard := fun _ _ => (created, createErr),
    GetDashboard := fun _ _ => (got, getErr),
    UpdateDashboard := fun _ _ r => (some r, updateErr),
    DeleteDashboard := fun _ _ => deleteErr }

/-- A configuration with two widgets, the first with two data entries. -/
def twoWidgets : ResourceData :=
  sampleData "42" "Ops" "bar-chart" "all" "editable_by_all"
    (Value.list
      [sampleWidget "billboard" [("title", Value.str "Errors"), ("notes", Value.str "per minute")]
         ["SELECT count(*) FROM TransactionError", "SELECT count(*) FROM Transaction"],
       sampleWidget "facet_table" [("title", Value.str "Hosts"), ("notes", Value.str "")]
         ["SELECT uniques(host) FROM Transaction"]])

/-- The request `buildDashboardStruct` returns on `twoWidgets`. -/
def twoWidgetsRequest : GetDashboardResp :=
  { Dashboard :=
      { ID := 0, Title := "Ops", Icon := "bar-chart", Visibility := "all",
        Editable := "editable_by_all", Metadata := { Version := 1 },
        Filter := { EventTypes := [], Attributes := [] },
        Widgets :=
          [{ Visualization := "billboard",
             Presentation := { Title := "Errors", Notes := "per minute" },
             Data := [{ Nrql := "SELECT count(*) FROM TransactionError" },
                      { Nrql := "SELECT count(*) FROM Transaction" }],
             Layout := { Width := 0, Height := 0, Row := 0, Column := 0 } },
           { Visualization := "facet_table",
             Presentation := { Title := "Hosts", Notes := "" },
             Data := [{ Nrql := "SELECT uniques(host) FROM Transaction" }],
             Layout := { Width := 0, Height := 0, Row := 0, Column := 0 } }] } }

/-- A configuration the schema accepts whose only widget has an empty
presentation map. -/
def barePresentation : ResourceData :=
  sampleData "" "Ops" "bar-chart" "all" "editable_by_all"
    (Value.list [sampleWidget "billboard" [] ["SELECT count(*) FROM Transaction"]])

/-- A configuration that leaves out visibility and has two widgets: the first
with an int visualization, an int presentation title and an int nrql, the
second with no visualization and no data list. -/
def looseShapes : ResourceData :=
  { id := "",
    attrs := fun k =>
      if k = "title" then Value.str "Ops"
      else if k = "icon" then Value.str "bar-chart"
      else if k = "editable" then Value.str "editable_by_all"
      else if k = "widgets" then
        Value.list
          [Value.map
             [("visualization", Value.int 1),
              ("presentation", Value.map [("title", Value.int 3), ("notes", Value.str "n")]),
              ("data", Value.list [Value.map [("nrql", Value.int 1)]])],
           Value.map
             [("presentation", Value.map [("title", Value.str "t"), ("notes", Value.str "n")])]]
      else Value.nil }

/-- The request `buildDashboardStruct` returns on `looseShapes`. -/
def looseShapesRequest : GetDashboardResp :=
  { Dashboard :=
      { ID := 0, Title := "Ops", Icon := "bar-chart", Visibility := "",
        Editable := "editable_by_all",
        Metadata := { Version := 1 }, Filter := { EventTypes := [], Attributes := [] },
        Widgets :=
          [{ Visualization := "1", Presentation := { Title := "3", Notes := "n" },
             Data := [{ Nrql := "1" }],
             Layout := { Width := 0, Height := 0, Row := 0, Column := 0 } },
           { Visualization := "", Presentation := { Title := "t", Notes := "n" },
             Data := [],
             Layout := { Width := 0, Height := 0, Row := 0, Column := 0 } }] } }

/-- The spec's example configuration with the given widget blocks. -/
def opsWith (widgets : List Value) : ResourceData :=
  sampleData "" "Ops" "bar-chart" "all" "editable_by_all" (Value.list widgets)

/-- The request `buildDashboardStruct` returns on `opsData`. -/
def opsRequest : GetDashboardResp :=
  { Dashboard :=
      { ID := 0, Title := "Ops", Icon := "bar-chart", Visibility := "all",
        Editable := "editable_by_all", Metadata := { Version := 1 },
        Filter := { EventTypes := [], Attributes := [] }, Widgets := [] } }

/-- A client on which every call succeeds; a created dashboard gets id 7. -/
def healthyClient : Client :=
  constClient (some { Dashboard := sampleDetail 7 "Ops" }) none (sampleDetail 7 "Ops") none none none

/-- A client on which every call fails with the error "boom". -/
def brokenClient : Client :=
  constClient none (some (GoError.other "boom")) (sampleDetail 0 "")
    (some (GoError.other "boom")) (some (GoError.other "boom")) (some (GoError.other "boom"))

/-! ## Read: the error branches -/

/-- C1: when `GetDashboard` answers with the sentinel `ErrNotFound`, Read sets
the external id to the empty string and returns nil; the attributes are left
as they were and the only call made is that `GetDashboard`. -/
theorem read_not_found_clears_id (d : ResourceData) (client : Client) (calls : List ApiCall)
    (h : (client.GetDashboard calls (Atoi d.Id).1).2 = some GoError.ErrNotFound) :
    resourceNewRelicDashboardRead d (Meta.client client) calls
      = Except.ok (none, d.SetId "", calls ++ [ApiCall.GetDashboard (Atoi d.Id).1])
    ∧ (d.SetId "").Id = "" := by
  refine ⟨?_, rfl⟩
  simp [resourceNewRelicDashboardRead, h]

/-- Witness of C1 on the id "42" with a client that never finds a dashboard. -/
theorem read_not_found_clears_id_witness :
    resourceNewRelicDashboardRead (opsData "42")
        (Meta.client (constClient none none (sampleDetail 0 "") (some GoError.ErrNotFound) none none)) []
      = Except.ok (none, (opsData "42").SetId "", [] ++ [ApiCall.GetDashboard (Atoi (opsData "42").Id).1])
    ∧ ((opsData "42").SetId "").Id = "" :=
  read_not_found_clears_id (opsData "42")
    (constClient none none (sampleDetail 0 "") (some GoError.ErrNotFound) none none) [] rfl

/-- C2: when `GetDashboard` answers with an error other than `ErrNotFound`,
Read returns exactly that error and hands back the resource data unchanged
(external id, title, icon, visibility, editable and every other attribute). -/
theorem read_other_error_surfaced (d : ResourceData) (client : Client) (calls : List ApiCall)
    (e : GoError) (hne : e ≠ GoError.ErrNotFound)
    (h : (client.GetDashboard calls (Atoi d.Id).1).2 = some e) :
    resourceNewRelicDashboardRead d (Meta.client client) calls
      = Except.ok (some e, d, calls ++ [ApiCall.GetDashboard (Atoi d.Id).1]) := by
  simp [resourceNewRelicDashboardRead, h, hne]

/-- Witness of C2 on the id "42" with a client answering "boom". -/
theorem read_other_error_surfaced_witness :
    resourceNewRelicDashboardRead (opsData "42")
        (Meta.client (constClient none none (sampleDetail 0 "") (some (GoError.other "boom")) none none)) []
      = Except.ok (some (GoError.other "boom"), opsData "42",
          [] ++ [ApiCall.GetDashboard (Atoi (opsData "42").Id).1]) :=
  read_other_error_surfaced (opsData "42")
    (constClient none none (sampleDetail 0 "") (some (GoError.other "boom")) none none) []
    (GoError.other "boom") (by decide) rfl

/-! ## Struct reader -/

/-- C8: `readDashboardStruct` returns nil; afterwards the title, icon,
visibility and editable attributes hold the detail's values and every other
attribute (widgets, filter, owner_email among them) and the external id are as
before; the detail's id, metadata, filter and widgets have no influence on the
result. -/
theorem readDashboardStruct_frame (dashboard : GetDashboardDetail) (d : ResourceData) :
    (readDashboardStruct dashboard d).1 = none
    ∧ (readDashboardStruct dashboard d).2.Id = d.Id
    ∧ (∀ key : String, (readDashboardStruct dashboard d).2.Get key =
        if key = "title" then Value.str dashboard.Title
        else if key = "icon" then Value.str dashboard.Icon
        else if key = "visibility" then Value.str dashboard.Visibility
        else if key = "editable" then Value.str dashboard.Editable
        else d.Get key)
    ∧ (readDashboardStruct dashboard d).2.Get "widgets" = d.Get "widgets"
    ∧ (readDashboardStruct dashboard d).2.Get "filter" = d.Get "filter"
    ∧ (readDashboardStruct dashboard d).2.Get "owner_email" = d.Get "owner_email"
    ∧ (∀ (id : Int) (metadata : DashboardMetadata) (filter : Filter)
        (widgets : List DashboardWidget),
        readDashboardStruct
            { dashboard with ID := id, Metadata := metadata, Filter := filter, Widgets := widgets } d
          = readDashboardStruct dashboard d) := by
  refine ⟨rfl, rfl, ?_, rfl, rfl, rfl, fun _ _ _ _ => rfl⟩
  intro key
  simp only [readDashboardStruct, ResourceData.Set, ResourceData.Get]
  by_cases h1 : key = "editable"
  · subst h1; simp [readString, weakString]
  by_cases h2 : key = "visibility"
  · subst h2; simp [readString, weakString]
  by_cases h3 : key = "icon"
  · subst h3; simp [readString, weakString]
  by_cases h4 : key = "title"
  · subst h4; simp [readString, weakString]
  simp [h1, h2, h3, h4]

/-! ## Struct builder -/

/-- A `rangeFill` loop that returns has filled as many positions as it ranged
over, each with what the body returned for the element at that position. -/
theorem rangeFill_ok {β : Type} (body : Value → Except Panic β) :
    ∀ (xs : List Value) (ys : List β), rangeFill body xs = Except.ok ys →
      ys.length = xs.length ∧
      ∀ (i : Nat) (x : Value), xs[i]? = some x → ∃ y, ys[i]? = some y ∧ body x = Except.ok y := by
  intro xs
  induction xs with
  | nil =>
    intro ys h
    simp only [rangeFill, Except.ok.injEq] at h
    subst h
    simp
  | cons x xs ih =>
    intro ys h
    simp only [rangeFill] at h
    cases hb : body x with
    | error p => rw [hb] at h; simp at h
    | ok y =>
      rw [hb] at h
      cases hr : rangeFill body xs with
      | error p => rw [hr] at h; simp at h
      | ok ys0 =>
        rw [hr] at h
        simp only [Except.ok.injEq] at h
        subst h
        obtain ⟨hlen, hidx⟩ := ih ys0 hr
        refine ⟨by simp [hlen], ?_⟩
        intro i x0 hx0
        cases i with
        | zero =>
          simp only [List.getElem?_cons_zero, Option.some.injEq] at hx0
          subst hx0
          exact ⟨y, by simp, hb⟩
        | succ j =>
          simp only [List.getElem?_cons_succ] at hx0
          obtain ⟨y0, hy0, hby0⟩ := hidx j x0 hx0
          exact ⟨y0, by simpa using hy0, hby0⟩

/-- A `rangeFill` loop returns exactly when its body returns on every element;
otherwise it panics the way the body does. -/
theorem rangeFill_dichotomy {β : Type} (body : Value → Except Panic β) (shaped : Value → Bool)
    (hbody : ∀ x, (shaped x = true ∧ ∃ y, body x = Except.ok y)
      ∨ (shaped x = false ∧ body x = Except.error Panic.typeAssertion)) :
    ∀ xs : List Value, (xs.all shaped = true ∧ ∃ ys, rangeFill body xs = Except.ok ys)
      ∨ (xs.all shaped = false ∧ rangeFill body xs = Except.error Panic.typeAssertion) := by
  intro xs
  induction xs with
  | nil => left; exact ⟨rfl, [], rfl⟩
  | cons x xs ih =>
    rcases hbody x with ⟨hs, y, hy⟩ | ⟨hs, hy⟩
    · rcases ih with ⟨ha, ys, hys⟩ | ⟨ha, hys⟩
      · left
        exact ⟨by simp only [List.all_cons, hs, ha, Bool.and_self], y :: ys, by simp [rangeFill, hy, hys]⟩
      · right
        exact ⟨by simp only [List.all_cons, hs, ha, Bool.and_false], by simp [rangeFill, hy, hys]⟩
    · right
      exact ⟨by simp only [List.all_cons, hs, Bool.false_and], by simp [rangeFill, hy]⟩

/-- A string assertion returns exactly on strings. -/
theorem assertString_dichotomy (v : Value) :
    (v.isStr = true ∧ ∃ s, v = Value.str s ∧ assertString v = Except.ok s)
      ∨ (v.isStr = false ∧ assertString v = Except.error Panic.typeAssertion) := by
  cases v <;> simp [Value.isStr, assertString]

/-- The inner loop body returns exactly on shaped data entries. -/
theorem buildWidgetData_dichotomy (v : Value) :
    (dataEntryShaped v = true ∧ ∃ y, buildWidgetData v = Except.ok y)
      ∨ (dataEntryShaped v = false ∧ buildWidgetData v = Except.error Panic.typeAssertion) := by
  cases v with
  | map m =>
    rcases assertString_dichotomy (mapIndex m "nrql") with ⟨hs, s, _, hok⟩ | ⟨hs, herr⟩
    · left
      exact ⟨by simpa [dataEntryShaped] using hs,
        ⟨{ Nrql := s }, by simp [buildWidgetData, assertMap, hok, bind, Except.bind, pure, Except.pure]⟩⟩
    · right
      exact ⟨by simpa [dataEntryShaped] using hs,
        by simp [buildWidgetData, assertMap, herr, bind, Except.bind]⟩
  | _ => right; exact ⟨rfl, rfl⟩

/-- The outer loop body returns exactly on shaped widgets. -/
theorem buildWidget_dichotomy (v : Value) :
    (widgetShaped v = true ∧ ∃ y, buildWidget v = Except.ok y)
      ∨ (widgetShaped v = false ∧ buildWidget v = Except.error Panic.typeAssertion) := by
  cases v with
  | map wm =>
    cases hp : mapIndex wm "presentation" with
    | map pm =>
      rcases assertString_dichotomy (mapIndex pm "title") with ⟨ht, t, _, htok⟩ | ⟨ht, hterr⟩
      · rcases assertString_dichotomy (mapIndex pm "notes") with ⟨hn, n, _, hnok⟩ | ⟨hn, hnerr⟩
        · cases hd : mapIndex wm "data" with
          | list ds =>
            rcases rangeFill_dichotomy buildWidgetData dataEntryShaped buildWidgetData_dichotomy ds
              with ⟨ha, ys, hys⟩ | ⟨ha, hys⟩
            · rcases assertString_dichotomy (mapIndex wm "visualization")
                with ⟨hv, vis, _, hvok⟩ | ⟨hv, hverr⟩
              · left
                refine ⟨by simp [widgetShaped, presentationShaped, dataListShaped, hp, hd, ht, hn, ha, hv], ?_⟩
                simp [buildWidget, assertMap, assertSlice, hp, hd, htok, hnok, hys, hvok,
                  bind, Except.bind, pure, Except.pure]
              · right
                exact ⟨by simp [widgetShaped, presentationShaped, dataListShaped, hp, hd, ht, hn, ha, hv],
                  by simp [buildWidget, assertMap, assertSlice, hp, hd, htok, hnok, hys, hverr,
                    bind, Except.bind]⟩
            · right
              exact ⟨by simp [widgetShaped, presentationShaped, dataListShaped, hp, hd, ht, hn, ha],
                by simp [buildWidget, assertMap, assertSlice, hp, hd, htok, hnok, hys, bind, Except.bind]⟩
          | _ =>
            right
            exact ⟨by simp [widgetShaped, presentationShaped, dataListShaped, hp, hd, ht, hn],
              by simp [buildWidget, assertMap, assertSlice, hp, hd, htok, hnok, bind, Except.bind]⟩
        · right
          exact ⟨by simp [widgetShaped, presentationShaped, hp, ht, hn],
            by simp [buildWidget, assertMap, hp, htok, hnerr, bind, Except.bind]⟩
      · right
        exact ⟨by simp [widgetShaped, presentationShaped, hp, ht],
          by simp [buildWidget, assertMap, hp, hterr, bind, Except.bind]⟩
    | _ =>
      right
      exact ⟨by simp [widgetShaped, presentationShaped, hp],
        by simp [buildWidget, assertMap, hp, bind, Except.bind]⟩
  | _ => right; exact ⟨rfl, rfl⟩

/-- The builder returns exactly on shaped configurations and panics on a type
assertion otherwise. -/
theorem buildDashboardStruct_cases (d : ResourceData) :
    (extractionShaped d = true ∧ ∃ req, buildDashboardStruct d = Except.ok req)
      ∨ (extractionShaped d = false
          ∧ buildDashboardStruct d = Except.error Panic.typeAssertion) := by
  cases hw : d.Get "widgets" with
  | list ws =>
    rcases rangeFill_dichotomy buildWidget widgetShaped buildWidget_dichotomy ws
      with ⟨ha, ys, hys⟩ | ⟨ha, hys⟩
    · rcases assertString_dichotomy (d.Get "title") with ⟨h1, t, _, h1ok⟩ | ⟨h1, h1err⟩
      · rcases assertString_dichotomy (d.Get "icon") with ⟨h2, i, _, h2ok⟩ | ⟨h2, h2err⟩
        · rcases assertString_dichotomy (d.Get "visibility") with ⟨h3, v, _, h3ok⟩ | ⟨h3, h3err⟩
          · rcases assertString_dichotomy (d.Get "editable") with ⟨h4, e, _, h4ok⟩ | ⟨h4, h4err⟩
            · left
              refine ⟨by simp [extractionShaped, widgetListShaped, hw, ha, h1, h2, h3, h4], ?_⟩
              simp [buildDashboardStruct, assertSlice, hw, hys, h1ok, h2ok, h3ok, h4ok,
                bind, Except.bind, pure, Except.pure]
            · right
              exact ⟨by simp [extractionShaped, widgetListShaped, hw, ha, h1, h2, h3, h4],
                by simp [buildDashboardStruct, assertSlice, hw, hys, h1ok, h2ok, h3ok, h4err,
                  bind, Except.bind]⟩
          · right
            exact ⟨by simp [extractionShaped, widgetListShaped, hw, ha, h1, h2, h3],
              by simp [buildDashboardStruct, assertSlice, hw, hys, h1ok, h2ok, h3err,
                bind, Except.bind]⟩
        · right
          exact ⟨by simp [extractionShaped, widgetListShaped, hw, ha, h1, h2],
            by simp [buildDashboardStruct, assertSlice, hw, hys, h1ok, h2err, bind, Except.bind]⟩
      · right
        exact ⟨by simp [extractionShaped, widgetListShaped, hw, ha, h1],
          by simp [buildDashboardStruct, assertSlice, hw, hys, h1err, bind, Except.bind]⟩
    · right
      exact ⟨by simp [extractionShaped, widgetListShaped, hw, ha],
        by simp [buildDashboardStruct, assertSlice, hw, hys, bind, Except.bind]⟩
  | _ =>
    right
    exact ⟨by simp [extractionShaped, widgetListShaped, hw],
      by simp [buildDashboardStruct, assertSlice, hw, bind, Except.bind]⟩

/-- A string assertion that returns was applied to that string. -/
theorem assertString_ok {v : Value} {s : String} (h : assertString v = Except.ok s) :
    v = Value.str s := by
  cases v <;> simp_all [assertString]

/-- What a returned data entry says about the configured entry. -/
theorem buildWidgetData_ok {v : Value} {y : WidgetData} (h : buildWidgetData v = Except.ok y) :
    ∃ dm, v = Value.map dm ∧ mapIndex dm "nrql" = Value.str y.Nrql := by
  cases v with
  | map dm =>
    refine ⟨dm, rfl, ?_⟩
    cases hs : assertString (mapIndex dm "nrql") with
    | error p => simp [buildWidgetData, assertMap, hs, bind, Except.bind] at h
    | ok s =>
      simp [buildWidgetData, assertMap, hs, bind, Except.bind, pure, Except.pure] at h
      subst h
      exact assertString_ok hs
  | _ => simp [buildWidgetData, assertMap, bind, Except.bind] at h

/-- What a returned widget says about the configured widget. -/
theorem buildWidget_ok {v : Value} {y : DashboardWidget} (h : buildWidget v = Except.ok y) :
    ∃ wm pm ds, v = Value.map wm
      ∧ mapIndex wm "visualization" = Value.str y.Visualization
      ∧ mapIndex wm "presentation" = Value.map pm
      ∧ mapIndex pm "title" = Value.str y.Presentation.Title
      ∧ mapIndex pm "notes" = Value.str y.Presentation.Notes
      ∧ mapIndex wm "data" = Value.list ds
      ∧ rangeFill buildWidgetData ds = Except.ok y.Data
      ∧ y.Layout = { Width := 0, Height := 0, Row := 0, Column := 0 } := by
  cases v with
  | map wm =>
    cases hp : mapIndex wm "presentation" with
    | map pm =>
      cases ht : assertString (mapIndex pm "title") with
      | error p => simp [buildWidget, assertMap, hp, ht, bind, Except.bind] at h
      | ok t =>
        cases hn : assertString (mapIndex pm "notes") with
        | error p => simp [buildWidget, assertMap, hp, ht, hn, bind, Except.bind] at h
        | ok n =>
          cases hd : mapIndex wm "data" with
          | list ds =>
            cases hr : rangeFill buildWidgetData ds with
            | error p =>
              simp [buildWidget, assertMap, assertSlice, hp, ht, hn, hd, hr, bind, Except.bind] at h
            | ok ys =>
              cases hv : assertString (mapIndex wm "visualization") with
              | error p =>
                simp [buildWidget, assertMap, assertSlice, hp, ht, hn, hd, hr, hv, bind,
                  Except.bind] at h
              | ok vis =>
                simp [buildWidget, assertMap, assertSlice, hp, ht, hn, hd, hr, hv, bind,
                  Except.bind, pure, Except.pure] at h
                subst h
                exact ⟨wm, pm, ds, rfl, assertString_ok hv, hp, assertString_ok ht,
                  assertString_ok hn, hd, hr, rfl⟩
          | _ => simp [buildWidget, assertMap, assertSlice, hp, ht, hn, hd, bind, Except.bind] at h
    | _ => simp [buildWidget, assertMap, hp, bind, Except.bind] at h
  | _ => simp [buildWidget, assertMap, bind, Except.bind] at h

/-- What a returned request says about the configuration it was built from. -/
theorem buildDashboardStruct_ok {d : ResourceData} {req : GetDashboardResp}
    (h : buildDashboardStruct d = Except.ok req) :
    ∃ ws, d.Get "widgets" = Value.list ws
      ∧ rangeFill buildWidget ws = Except.ok req.Dashboard.Widgets
      ∧ d.Get "title" = Value.str req.Dashboard.Title
      ∧ d.Get "icon" = Value.str req.Dashboard.Icon
      ∧ d.Get "visibility" = Value.str req.Dashboard.Visibility
      ∧ d.Get "editable" = Value.str req.Dashboard.Editable
      ∧ req.Dashboard.Metadata.Version = 1
      ∧ req.Dashboard.ID = 0
      ∧ req.Dashboard.Filter = { EventTypes := [], Attributes := [] } := by
  cases hw : d.Get "widgets" with
  | list ws =>
    cases hr : rangeFill buildWidget ws with
    | error p => simp [buildDashboardStruct, assertSlice, hw, hr, bind, Except.bind] at h
    | ok ys =>
      cases h1 : assertString (d.Get "title") with
      | error p => simp [buildDashboardStruct, assertSlice, hw, hr, h1, bind, Except.bind] at h
      | ok t =>
        cases h2 : assertString (d.Get "icon") with
        | error p => simp [buildDashboardStruct, assertSlice, hw, hr, h1, h2, bind, Except.bind] at h
        | ok i =>
          cases h3 : assertString (d.Get "visibility") with
          | error p =>
            simp [buildDashboardStruct, assertSlice, hw, hr, h1, h2, h3, bind, Except.bind] at h
          | ok v =>
            cases h4 : assertString (d.Get "editable") with
            | error p =>
              simp [buildDashboardStruct, assertSlice, hw, hr, h1, h2, h3, h4, bind,
                Except.bind] at h
            | ok e =>
              simp [buildDashboardStruct, assertSlice, hw, hr, h1, h2, h3, h4, bind,
                Except.bind, pure, Except.pure] at h
              subst h
              exact ⟨ws, rfl, hr, assertString_ok h1, assertString_ok h2, assertString_ok h3,
                assertString_ok h4, rfl, rfl, rfl⟩
  | _ => simp [buildDashboardStruct, assertSlice, hw, bind, Except.bind] at h

/-- C7: a built request has exactly as many widgets as the configured widget
list, and the widget at each position carries the visualization, presentation
title and presentation notes of the configured widget at that position and a
data list of the same length whose entry at each position carries the nrql
string configured at that position. -/
theorem buildDashboardStruct_widgets_positional (d : ResourceData) (req : GetDashboardResp)
    (hb : buildDashboardStruct d = Except.ok req) :
    ∃ ws, d.Get "widgets" = Value.list ws
      ∧ req.Dashboard.Widgets.length = ws.length
      ∧ ∀ (i : Nat) (w : Value), ws[i]? = some w →
          ∃ rw wm pm ds, req.Dashboard.Widgets[i]? = some rw ∧ w = Value.map wm
            ∧ mapIndex wm "visualization" = Value.str rw.Visualization
            ∧ mapIndex wm "presentation" = Value.map pm
            ∧ mapIndex pm "title" = Value.str rw.Presentation.Title
            ∧ mapIndex pm "notes" = Value.str rw.Presentation.Notes
            ∧ mapIndex wm "data" = Value.list ds
            ∧ rw.Data.length = ds.length
            ∧ ∀ (k : Nat) (e : Value), ds[k]? = some e →
                ∃ rd dm, rw.Data[k]? = some rd ∧ e = Value.map dm
                  ∧ mapIndex dm "nrql" = Value.str rd.Nrql := by
  obtain ⟨ws, hws, hfill, -⟩ := buildDashboardStruct_ok hb
  obtain ⟨hlen, hidx⟩ := rangeFill_ok buildWidget ws _ hfill
  refine ⟨ws, hws, hlen, ?_⟩
  intro i w hw
  obtain ⟨rw, hrw, hbw⟩ := hidx i w hw
  obtain ⟨wm, pm, ds, hwm, hvis, hpres, htitle, hnotes, hdata, hdfill, -⟩ := buildWidget_ok hbw
  obtain ⟨hdlen, hdidx⟩ := rangeFill_ok buildWidgetData ds _ hdfill
  refine ⟨rw, wm, pm, ds, hrw, hwm, hvis, hpres, htitle, hnotes, hdata, hdlen, ?_⟩
  intro k e he
  obtain ⟨rd, hrd, hbd⟩ := hdidx k e he
  obtain ⟨dm, hdm, hnrql⟩ := buildWidgetData_ok hbd
  exact ⟨rd, dm, hrd, hdm, hnrql⟩

/-- Witness of C7 on a configuration with two widgets. -/
theorem buildDashboardStruct_widgets_positional_witness :
    buildDashboardStruct twoWidgets = Except.ok twoWidgetsRequest
    ∧ ∃ ws, twoWidgets.Get "widgets" = Value.list ws
        ∧ twoWidgetsRequest.Dashboard.Widgets.length = ws.length :=
  ⟨rfl,
   (buildDashboardStruct_widgets_positional twoWidgets twoWidgetsRequest rfl).imp
     (fun _ h => ⟨h.1, h.2.1⟩)⟩

/-- C3, as stated, fails: a configuration the schema accepts (every widget
attribute is optional there) whose widget has a presentation map without
title and notes makes the builder panic, so no request is returned. -/
theorem roundtrip_valid_configuration_counterexample :
    validConfiguration barePresentation = true
    ∧ buildDashboardStruct barePresentation = Except.error Panic.typeAssertion
    ∧ ¬ ∃ req, buildDashboardStruct barePresentation = Except.ok req := by
  have h : buildDashboardStruct barePresentation = Except.error Panic.typeAssertion := rfl
  refine ⟨by decide, h, ?_⟩
  rintro ⟨req, hreq⟩
  rw [h] at hreq
  exact Except.noConfusion hreq

/-- C3, amended: on every configuration in which each value the builder
extracts is present with the expected type, `buildDashboardStruct` returns a
request, and `readDashboardStruct` on that request's detail returns nil and
leaves a state whose title, icon, visibility and editable equal those of the
configuration. -/
theorem build_then_read_roundtrip (d : ResourceData) (h : extractionShaped d = true) :
    ∃ req, buildDashboardStruct d = Except.ok req
      ∧ ∀ s : ResourceData,
          (readDashboardStruct req.Dashboard s).1 = none
          ∧ (readDashboardStruct req.Dashboard s).2.Get "title" = d.Get "title"
          ∧ (readDashboardStruct req.Dashboard s).2.Get "icon" = d.Get "icon"
          ∧ (readDashboardStruct req.Dashboard s).2.Get "visibility" = d.Get "visibility"
          ∧ (readDashboardStruct req.Dashboard s).2.Get "editable" = d.Get "editable" := by
  rcases buildDashboardStruct_cases d with ⟨-, req, hreq⟩ | ⟨hf, -⟩
  · obtain ⟨ws, -, -, ht, hi, hv, he, -⟩ := buildDashboardStruct_ok hreq
    refine ⟨req, hreq, ?_⟩
    intro s
    rw [ht, hi, hv, he]
    exact ⟨rfl, rfl, rfl, rfl, rfl⟩
  · rw [h] at hf
    exact Bool.noConfusion hf

/-- Witness of the amended C3 on a configuration with two widgets, read back
into the state of another resource. -/
theorem build_then_read_roundtrip_witness :
    extractionShaped twoWidgets = true
    ∧ ∃ req, buildDashboardStruct twoWidgets = Except.ok req
        ∧ (readDashboardStruct req.Dashboard (opsData "7")).2.Get "title" = twoWidgets.Get "title" :=
  ⟨by decide,
   (build_then_read_roundtrip twoWidgets (by decide)).imp
     (fun _ h => ⟨h.1, (h.2 (opsData "7")).2.1⟩)⟩

/-! ## `strconv.Atoi` on decimal renderings -/

/-- The character printed for a digit is that digit. -/
theorem digitChar_digit : ∀ k : Nat, k < 10 →
    isDigitByte (Nat.digitChar k) = true ∧ (Nat.digitChar k).toNat - 48 = k := by
  decide

/-- Reading further digits never lowers the value. -/
theorem le_digitsFold : ∀ (ds : List Char) (n : Nat), n ≤ digitsFold ds n := by
  intro ds
  induction ds with
  | nil => intro n; exact Nat.le_refl n
  | cons c cs ih =>
    intro n
    have := ih (n * 10 + (c.toNat - 48))
    simp only [digitsFold]
    omega

/-- The digits printed for a number are decimal digits, read back to the
number, and there is at least one. -/
theorem toDigitsCore_digits : ∀ (fuel n : Nat) (ds : List Char), n < fuel →
    (∀ c ∈ ds, isDigitByte c = true) →
    (∀ c ∈ Nat.toDigitsCore 10 fuel n ds, isDigitByte c = true)
      ∧ digitsFold (Nat.toDigitsCore 10 fuel n ds) 0 = digitsFold ds n
      ∧ Nat.toDigitsCore 10 fuel n ds ≠ [] := by
  intro fuel
  induction fuel with
  | zero => intro n ds h; omega
  | succ fuel ih =>
    intro n ds hn hds
    have hd := digitChar_digit (n % 10) (Nat.mod_lt n (by decide))
    have hds2 : ∀ c ∈ Nat.digitChar (n % 10) :: ds, isDigitByte c = true := by
      intro c hc
      rcases List.mem_cons.mp hc with h | h
      · rw [h]; exact hd.1
      · exact hds c h
    simp only [Nat.toDigitsCore]
    by_cases h0 : n / 10 = 0
    · simp only [h0, if_true]
      refine ⟨hds2, ?_, List.cons_ne_nil _ _⟩
      simp only [digitsFold, hd.2]
      congr 1
      omega
    · simp only [h0, if_false]
      obtain ⟨h1, h2, h3⟩ := ih (n / 10) (Nat.digitChar (n % 10) :: ds) (by omega) hds2
      refine ⟨h1, ?_, h3⟩
      rw [h2]
      simp only [digitsFold, hd.2]
      congr 1
      omega

/-- The decimal rendering of a natural number is a non-empty run of digits
with that value. -/
theorem repr_digits (m : Nat) :
    ∃ c rest, (Nat.repr m).data = c :: rest
      ∧ (∀ x ∈ c :: rest, isDigitByte x = true)
      ∧ digitsFold (c :: rest) 0 = m := by
  obtain ⟨h1, h2, h3⟩ := toDigitsCore_digits (m + 1) m [] (by omega) (by simp)
  have hdata : (Nat.repr m).data = Nat.toDigitsCore 10 (m + 1) m [] := rfl
  cases hl : Nat.toDigitsCore 10 (m + 1) m [] with
  | nil => exact absurd hl h3
  | cons c rest =>
    rw [hl] at h1 h2
    exact ⟨c, rest, by rw [hdata, hl], h1, by simpa [digitsFold] using h2⟩

/-- The fast loop reads a run of digits below 2^63 without wrap-around. -/
theorem atoiFastLoop_digits : ∀ (ds : List Char) (n : Nat),
    (∀ c ∈ ds, isDigitByte c = true) → digitsFold ds n < 9223372036854775808 →
    atoiFastLoop ds (n : Int) = (((digitsFold ds n : Nat) : Int), none) := by
  intro ds
  induction ds with
  | nil => intro n _ _; rfl
  | cons c cs ih =>
    intro n hds hlt
    have hc : isDigitByte c = true := hds c (List.mem_cons_self c cs)
    have hc2 : 48 ≤ c.toNat := by
      simp only [isDigitByte, Bool.and_eq_true, decide_eq_true_eq] at hc
      exact hc.1
    simp only [digitsFold] at hlt ⊢
    have hle := le_digitsFold cs (n * 10 + (c.toNat - 48))
    have hw : wrapInt ((n : Int) * 10 + ((c.toNat : Int) - 48))
        = ((n * 10 + (c.toNat - 48) : Nat) : Int) := by
      unfold wrapInt
      omega
    simp only [atoiFastLoop, hc, if_true, hw]
    exact ih _ (fun x hx => hds x (List.mem_cons_of_mem c hx)) hlt

/-- The `ParseUint` loop reads a run of digits up to 2^63 without a range error. -/
theorem parseUintLoop_digits : ∀ (ds : List Char) (n : Nat),
    (∀ c ∈ ds, isDigitByte c = true) → digitsFold ds n ≤ 9223372036854775808 →
    parseUintLoop ds n = (digitsFold ds n, none) := by
  intro ds
  induction ds with
  | nil => intro n _ _; rfl
  | cons c cs ih =>
    intro n hds hlt
    have hc : isDigitByte c = true := hds c (List.mem_cons_self c cs)
    simp only [digitsFold] at hlt ⊢
    have hle := le_digitsFold cs (n * 10 + (c.toNat - 48))
    have h1 : ¬ (maxUint64 / 10 + 1 ≤ n) := by
      unfold maxUint64
      omega
    have h2 : (n * 10 + (c.toNat - 48)) % 18446744073709551616 = n * 10 + (c.toNat - 48) := by
      omega
    have h3 : ¬ (n * 10 + (c.toNat - 48) < n * 10 ∨ maxUint64 < n * 10 + (c.toNat - 48)) := by
      unfold maxUint64
      omega
    simp only [parseUintLoop, hc, if_true, h1, if_false, h2, h3]
    exact ih _ (fun x hx => hds x (List.mem_cons_of_mem c hx)) hlt

/-- A digit is not a sign. -/
theorem digit_not_sign {c : Char} (h : isDigitByte c = true) : c ≠ '-' ∧ c ≠ '+' := by
  constructor <;> rintro rfl <;> exact absurd h (by decide)

/-- `Atoi` reads back the canonical decimal rendering of every `int`. -/
theorem Atoi_decimalString (n : Int) (hlo : minInt ≤ n) (hhi : n ≤ maxInt) :
    Atoi (decimalString n) = (n, none) := by
  unfold minInt at hlo
  unfold maxInt at hhi
  by_cases hmin : n = -9223372036854775808
  · subst hmin; decide
  by_cases hneg : n < 0
  · obtain ⟨c, rest, hdata, hdig, hval⟩ := repr_digits n.natAbs
    have hs : (decimalString n).data = '-' :: c :: rest := by
      simp only [decimalString, hneg, if_true, String.data_append, hdata]
      rfl
    have hfast := atoiFastLoop_digits (c :: rest) 0 hdig (by rw [hval]; omega)
    have hslow := parseUintLoop_digits (c :: rest) 0 hdig (by rw [hval]; omega)
    rw [hval] at hfast hslow
    have hw : wrapInt (-(n.natAbs : Int)) = n := by
      unfold wrapInt
      omega
    have hn : -(n.natAbs : Int) = n := by omega
    have hn2 : -|n| = n := by rw [abs_of_neg hneg]; omega
    have hw2 : wrapInt (-|n|) = n := by rw [hn2]; unfold wrapInt; omega
    unfold Atoi
    simp only [hs]
    split
    · simp only [Nat.cast_zero] at hfast
      simp [hfast, hw2]
    · have hc : ¬ (9223372036854775808 < n.natAbs) := by omega
      simp [ParseInt, ParseUint, hslow, hc, hn2]
  · obtain ⟨c, rest, hdata, hdig, hval⟩ := repr_digits n.toNat
    have hs : (decimalString n).data = c :: rest := by
      simp only [decimalString, hneg, if_false, hdata]
    obtain ⟨hc1, hc2⟩ := digit_not_sign (hdig c (List.mem_cons_self c rest))
    have hfast := atoiFastLoop_digits (c :: rest) 0 hdig (by rw [hval]; omega)
    have hslow := parseUintLoop_digits (c :: rest) 0 hdig (by rw [hval]; omega)
    rw [hval] at hfast hslow
    have hn : (n.toNat : Int) = n := by omega
    unfold Atoi
    simp only [hs]
    split
    · simp only [Nat.cast_zero] at hfast
      simp [hfast, hc1, hc2, hn]
    · have hc : ¬ (9223372036854775808 ≤ n.toNat) := by omega
      simp [ParseInt, ParseUint, hslow, hc, hc1, hc2, hn]

/-- The `ParseUint` loop ends without error, with a syntax error and 0, or
with a range error and the largest `uint64`. -/
theorem parseUintLoop_outcomes : ∀ (ds : List Char) (n : Nat),
    (parseUintLoop ds n).2 = none
      ∨ parseUintLoop ds n = (0, some NumError.ErrSyntax)
      ∨ parseUintLoop ds n = (maxUint64, some NumError.ErrRange) := by
  intro ds
  induction ds with
  | nil => intro n; left; rfl
  | cons c cs ih =>
    intro n
    simp only [parseUintLoop]
    split
    · split
      · right; right; rfl
      · split
        · right; right; rfl
        · exact ih _
    · right; left; rfl

/-- The fast loop ends without error or with a syntax error and 0. -/
theorem atoiFastLoop_outcomes : ∀ (ds : List Char) (n : Int),
    (atoiFastLoop ds n).2 = none ∨ atoiFastLoop ds n = (0, some NumError.ErrSyntax) := by
  intro ds
  induction ds with
  | nil => intro n; left; rfl
  | cons c cs ih =>
    intro n
    simp only [atoiFastLoop]
    split
    · exact ih _
    · right; rfl

/-- `ParseInt` fails with 0 on a syntax error and with the bound of matching
sign on a range error. -/
theorem ParseInt_outcomes (cs : List Char) :
    (ParseInt cs).2 = none
      ∨ ParseInt cs = (0, some NumError.ErrSyntax)
      ∨ (ParseInt cs = (maxInt, some NumError.ErrRange) ∧ cs.head? ≠ some '-')
      ∨ (ParseInt cs = (minInt, some NumError.ErrRange) ∧ cs.head? = some '-') := by
  cases cs with
  | nil => right; left; rfl
  | cons c rest =>
    simp only [ParseInt]
    split
    · right; left; rfl
    · split
      · rename_i h
        right; right; left
        refine ⟨rfl, ?_⟩
        simpa using h.1
      · split
        · rename_i h
          right; right; right
          refine ⟨rfl, ?_⟩
          simpa using h.1
        · left; rfl

/-- `Atoi` fails with 0 on a syntax error and with the `int` bound of matching
sign on a range error. -/
theorem Atoi_outcomes (s : String) :
    (Atoi s).2 = none
      ∨ Atoi s = (0, some NumError.ErrSyntax)
      ∨ (Atoi s = (maxInt, some NumError.ErrRange) ∧ s.data.head? ≠ some '-')
      ∨ (Atoi s = (minInt, some NumError.ErrRange) ∧ s.data.head? = some '-') := by
  unfold Atoi
  simp only
  split
  · cases hd : s.data with
    | nil => right; left; rfl
    | cons c rest =>
      simp only
      generalize (if (decide (c = '-') || decide (c = '+')) = true then rest else c :: rest) = body
      by_cases hg : (decide (c = '-') || decide (c = '+')) = true ∧ body.length < 1
      · right; left
        simp only [hg, and_self, if_true]
      · simp only [hg, if_false]
        rcases atoiFastLoop_outcomes body 0 with h | h
        · left
          cases hf : atoiFastLoop body 0 with
          | mk v err =>
            rw [hf] at h
            simp only at h
            subst h
            rfl
        · right; left
          rw [h]
  · exact ParseInt_outcomes s.data

/-! ## CRUD handlers -/

/-- Read makes exactly one `GetDashboard` call, with the `int` that `Atoi`
returned, and returns nil or the error of that call. -/
theorem read_calls (d : ResourceData) (client : Client) (calls : List ApiCall) :
    ∃ out d1, resourceNewRelicDashboardRead d (Meta.client client) calls
        = Except.ok (out, d1, calls ++ [ApiCall.GetDashboard (Atoi d.Id).1])
      ∧ (out = none ∨ out = (client.GetDashboard calls (Atoi d.Id).1).2) := by
  cases hg : (client.GetDashboard calls (Atoi d.Id).1).2 with
  | none =>
    exact ⟨none, (readDashboardStruct (client.GetDashboard calls (Atoi d.Id).1).1 d).2,
      by simp [resourceNewRelicDashboardRead, hg, readDashboardStruct], Or.inl rfl⟩
  | some err =>
    by_cases he : err = GoError.ErrNotFound
    · exact ⟨none, d.SetId "", by simp [resourceNewRelicDashboardRead, hg, he], Or.inl rfl⟩
    · exact ⟨some err, d, by simp [resourceNewRelicDashboardRead, hg, he], Or.inr rfl⟩

/-- Update, once the builder has returned, calls `UpdateDashboard` with the
`int` that `Atoi` returned and the built request carrying that id; on an error
it stops there, otherwise it goes on to Read. -/
theorem update_steps (d : ResourceData) (client : Client) (calls : List ApiCall)
    (req : GetDashboardResp) (hb : buildDashboardStruct d = Except.ok req) :
    resourceNewRelicDashboardUpdate d (Meta.client client) calls =
      match (client.UpdateDashboard calls (Atoi d.Id).1
          { req with Dashboard := { req.Dashboard with ID := (Atoi d.Id).1 } }).2 with
      | some err => Except.ok (some err, d, calls ++ [ApiCall.UpdateDashboard (Atoi d.Id).1
          { req with Dashboard := { req.Dashboard with ID := (Atoi d.Id).1 } }])
      | none => resourceNewRelicDashboardRead d (Meta.client client)
          (calls ++ [ApiCall.UpdateDashboard (Atoi d.Id).1
            { req with Dashboard := { req.Dashboard with ID := (Atoi d.Id).1 } }]) := by
  simp only [resourceNewRelicDashboardUpdate, hb]

/-- Delete calls `DeleteDashboard` with the `int` that `Atoi` returned and
clears the id only when that call returns nil. -/
theorem delete_steps (d : ResourceData) (client : Client) (calls : List ApiCall) :
    resourceNewRelicDashboardDelete d (Meta.client client) calls =
      match client.DeleteDashboard calls (Atoi d.Id).1 with
      | some err => Except.ok (some err, d, calls ++ [ApiCall.DeleteDashboard (Atoi d.Id).1])
      | none => Except.ok (none, d.SetId "", calls ++ [ApiCall.DeleteDashboard (Atoi d.Id).1]) := by
  simp only [resourceNewRelicDashboardDelete]

/-- C5: with the external id the decimal string of an `int` n and a
configuration the builder accepts, Update calls `UpdateDashboard` with id n
and with the built request in which only `Dashboard.ID` is replaced by n; when
that call returns an error, Update returns it without invoking Read (no further
call, resource data unchanged), and otherwise Update continues as Read. -/
theorem update_sends_parsed_id (d : ResourceData) (client : Client) (calls : List ApiCall)
    (req : GetDashboardResp) (n : Int) (hlo : minInt ≤ n) (hhi : n ≤ maxInt)
    (hid : d.Id = decimalString n) (hb : buildDashboardStruct d = Except.ok req) :
    (∀ e, (client.UpdateDashboard calls n
          { req with Dashboard := { req.Dashboard with ID := n } }).2 = some e →
        resourceNewRelicDashboardUpdate d (Meta.client client) calls
          = Except.ok (some e, d, calls ++ [ApiCall.UpdateDashboard n
              { req with Dashboard := { req.Dashboard with ID := n } }]))
    ∧ ((client.UpdateDashboard calls n
          { req with Dashboard := { req.Dashboard with ID := n } }).2 = none →
        resourceNewRelicDashboardUpdate d (Meta.client client) calls
          = resourceNewRelicDashboardRead d (Meta.client client)
              (calls ++ [ApiCall.UpdateDashboard n
                { req with Dashboard := { req.Dashboard with ID := n } }])) := by
  have hn : (Atoi d.Id).1 = n := by rw [hid, Atoi_decimalString n hlo hhi]
  have hu := update_steps d client calls req hb
  rw [hn] at hu
  constructor
  · intro e he
    rw [hu, he]
  · intro he
    rw [hu, he]

/-- C6: with the external id the decimal string of an `int` n, Delete calls
`DeleteDashboard` with n; when that call returns nil the id is cleared and nil
is returned, when it returns an error e, Delete returns e and the resource
data is unchanged; so the id is cleared with a nil result exactly when the
call succeeds. -/
theorem delete_clears_id_only_on_success (d : ResourceData) (client : Client)
    (calls : List ApiCall) (n : Int) (hlo : minInt ≤ n) (hhi : n ≤ maxInt)
    (hid : d.Id = decimalString n) :
    (client.DeleteDashboard calls n = none →
        resourceNewRelicDashboardDelete d (Meta.client client) calls
          = Except.ok (none, d.SetId "", calls ++ [ApiCall.DeleteDashboard n]))
    ∧ (∀ e, client.DeleteDashboard calls n = some e →
        resourceNewRelicDashboardDelete d (Meta.client client) calls
          = Except.ok (some e, d, calls ++ [ApiCall.DeleteDashboard n]))
    ∧ (∃ out d1, resourceNewRelicDashboardDelete d (Meta.client client) calls
          = Except.ok (out, d1, calls ++ [ApiCall.DeleteDashboard n])
        ∧ ((out = none ∧ d1.Id = "") ↔ client.DeleteDashboard calls n = none)) := by
  have hn : (Atoi d.Id).1 = n := by rw [hid, Atoi_decimalString n hlo hhi]
  have hd := delete_steps d client calls
  rw [hn] at hd
  refine ⟨fun h => by rw [hd, h], fun e h => by rw [hd, h], ?_⟩
  cases h : client.DeleteDashboard calls n with
  | none =>
    rw [h] at hd
    exact ⟨none, d.SetId "", hd, by simp [ResourceData.SetId, ResourceData.Id]⟩
  | some e =>
    rw [h] at hd
    exact ⟨some e, d, hd, by simp⟩

/-- C4: on a configuration the builder accepts, Create calls `CreateDashboard`
with the built request, whose title is the configured title and whose metadata
version is 1; when the call returns a dashboard with id n and no error, the
external id is set to the decimal string of n (the state then reads that id,
its attributes untouched) and Create continues as Read on that state; when the
call returns an error, Create returns it with the resource data, external id
included, unchanged and nothing else called. -/
theorem create_sets_id_then_reads (d : ResourceData) (client : Client) (calls : List ApiCall)
    (req : GetDashboardResp) (hb : buildDashboardStruct d = Except.ok req) :
    d.Get "title" = Value.str req.Dashboard.Title
    ∧ req.Dashboard.Metadata.Version = 1
    ∧ (∀ resp, client.CreateDashboard calls req = (some resp, none) →
        serializeIDs [resp.Dashboard.ID] = decimalString resp.Dashboard.ID
        ∧ (d.SetId (serializeIDs [resp.Dashboard.ID])).Id = decimalString resp.Dashboard.ID
        ∧ (d.SetId (serializeIDs [resp.Dashboard.ID])).attrs = d.attrs
        ∧ resourceNewRelicDashboardCreate d (Meta.client client) calls
            = resourceNewRelicDashboardRead (d.SetId (serializeIDs [resp.Dashboard.ID]))
                (Meta.client client) (calls ++ [ApiCall.CreateDashboard req]))
    ∧ (∀ r e, client.CreateDashboard calls req = (r, some e) →
        resourceNewRelicDashboardCreate d (Meta.client client) calls
          = Except.ok (some e, d, calls ++ [ApiCall.CreateDashboard req])) := by
  obtain ⟨ws, -, -, ht, -, -, -, hv, -⟩ := buildDashboardStruct_ok hb
  have hser : ∀ n : Int, serializeIDs [n] = decimalString n := fun _ => rfl
  refine ⟨ht, hv, ?_, ?_⟩
  · intro resp hc
    refine ⟨hser _, ?_, rfl, ?_⟩
    · rw [hser]; rfl
    · simp only [resourceNewRelicDashboardCreate, hb, hc]
  · intro r e hc
    simp only [resourceNewRelicDashboardCreate, hb, hc]

/-- Witness of C4 on the spec's example: title "Ops", returned id 7; the
external id reads "7" before Read runs and after it. -/
theorem create_sets_id_then_reads_witness :
    buildDashboardStruct (opsData "") = Except.ok opsRequest
    ∧ (opsData "").Get "title" = Value.str "Ops"
    ∧ opsRequest.Dashboard.Metadata.Version = 1
    ∧ serializeIDs [7] = "7"
    ∧ ((opsData "").SetId (serializeIDs [7])).Id = "7"
    ∧ resourceNewRelicDashboardCreate (opsData "") (Meta.client healthyClient) []
        = resourceNewRelicDashboardRead ((opsData "").SetId "7")
            (Meta.client healthyClient) ([] ++ [ApiCall.CreateDashboard opsRequest])
    ∧ (∃ d1, resourceNewRelicDashboardCreate (opsData "") (Meta.client healthyClient) []
          = Except.ok (none, d1, [ApiCall.CreateDashboard opsRequest, ApiCall.GetDashboard 7])
        ∧ d1.Id = "7")
    ∧ resourceNewRelicDashboardCreate (opsData "") (Meta.client brokenClient) []
        = Except.ok (some (GoError.other "boom"), opsData "",
            [] ++ [ApiCall.CreateDashboard opsRequest])
    ∧ (opsData "").Id = "" :=
  ⟨rfl,
   (create_sets_id_then_reads (opsData "") healthyClient [] opsRequest rfl).1,
   (create_sets_id_then_reads (opsData "") healthyClient [] opsRequest rfl).2.1,
   by decide,
   ((create_sets_id_then_reads (opsData "") healthyClient [] opsRequest rfl).2.2.1
      { Dashboard := sampleDetail 7 "Ops" } rfl).2.1.trans (by decide),
   ((create_sets_id_then_reads (opsData "") healthyClient [] opsRequest rfl).2.2.1
      { Dashboard := sampleDetail 7 "Ops" } rfl).2.2.2,
   ⟨(readDashboardStruct (sampleDetail 7 "Ops") ((opsData "").SetId "7")).2, rfl, rfl⟩,
   (create_sets_id_then_reads (opsData "") brokenClient [] opsRequest rfl).2.2.2 none
      (GoError.other "boom") rfl,
   rfl⟩

/-- Witness of C5 on the id "42" with a client whose update fails. -/
theorem update_sends_parsed_id_witness :
    minInt ≤ 42 ∧ 42 ≤ maxInt ∧ (opsData "42").Id = decimalString 42
    ∧ buildDashboardStruct (opsData "42") = Except.ok opsRequest
    ∧ resourceNewRelicDashboardUpdate (opsData "42") (Meta.client brokenClient) []
        = Except.ok (some (GoError.other "boom"), opsData "42",
            [] ++ [ApiCall.UpdateDashboard 42
              { opsRequest with Dashboard := { opsRequest.Dashboard with ID := 42 } }]) :=
  ⟨by decide, by decide, by decide, rfl,
   (update_sends_parsed_id (opsData "42") brokenClient [] opsRequest 42 (by decide) (by decide)
      (by decide) rfl).1 (GoError.other "boom") rfl⟩

/-- Witness of C6 on the id "42" with a client whose delete succeeds. -/
theorem delete_clears_id_only_on_success_witness :
    minInt ≤ 42 ∧ 42 ≤ maxInt ∧ (opsData "42").Id = decimalString 42
    ∧ resourceNewRelicDashboardDelete (opsData "42") (Meta.client healthyClient) []
        = Except.ok (none, (opsData "42").SetId "", [] ++ [ApiCall.DeleteDashboard 42]) :=
  ⟨by decide, by decide, by decide,
   (delete_clears_id_only_on_success (opsData "42") healthyClient [] 42 (by decide) (by decide)
      (by decide)).1 rfl⟩

/-- C9, as stated, fails: on the digit string "99999999999999999999" parsing
fails with a range error and Read, Update and Delete call the API with the
largest `int`, not with 0. -/
theorem parse_failure_id_zero_counterexample :
    Atoi "99999999999999999999" = (9223372036854775807, some NumError.ErrRange)
    ∧ resourceNewRelicDashboardRead (opsData "99999999999999999999") (Meta.client brokenClient) []
        = Except.ok (some (GoError.other "boom"), opsData "99999999999999999999",
            [ApiCall.GetDashboard 9223372036854775807])
    ∧ resourceNewRelicDashboardUpdate (opsData "99999999999999999999")
          (Meta.client brokenClient) []
        = Except.ok (some (GoError.other "boom"), opsData "99999999999999999999",
            [ApiCall.UpdateDashboard 9223372036854775807
              { opsRequest with
                Dashboard := { opsRequest.Dashboard with ID := 9223372036854775807 } }])
    ∧ resourceNewRelicDashboardDelete (opsData "99999999999999999999")
          (Meta.client healthyClient) []
        = Except.ok (none, (opsData "99999999999999999999").SetId "",
            [ApiCall.DeleteDashboard 9223372036854775807])
    ∧ ApiCall.GetDashboard 9223372036854775807 ≠ ApiCall.GetDashboard 0 :=
  ⟨by decide, rfl, rfl, rfl, by decide⟩

/-- C9, amended: when parsing the external id fails, no handler reports the
parse error (each returns nil or an error the client returned) and each calls
the API with the `int` that `Atoi` returned alongside the error: 0 after a
syntax error (the empty string, non-numeric text), the largest `int` after a
range error on a string without a minus sign, the smallest `int` after a range
error on a string with one. -/
theorem parse_failure_ignored (d : ResourceData) (client : Client) (calls : List ApiCall)
    (e : NumError) (h : (Atoi d.Id).2 = some e) :
    ∃ id : Int,
      ((e = NumError.ErrSyntax ∧ id = 0)
        ∨ (e = NumError.ErrRange ∧ d.Id.data.head? ≠ some '-' ∧ id = maxInt)
        ∨ (e = NumError.ErrRange ∧ d.Id.data.head? = some '-' ∧ id = minInt))
      ∧ (∃ out d1, resourceNewRelicDashboardRead d (Meta.client client) calls
            = Except.ok (out, d1, calls ++ [ApiCall.GetDashboard id])
          ∧ (out = none ∨ out = (client.GetDashboard calls id).2))
      ∧ (∀ req, buildDashboardStruct d = Except.ok req →
          ∃ out d1 more, resourceNewRelicDashboardUpdate d (Meta.client client) calls
              = Except.ok (out, d1, calls ++ ApiCall.UpdateDashboard id
                  { req with Dashboard := { req.Dashboard with ID := id } } :: more)
            ∧ (more = [] ∨ more = [ApiCall.GetDashboard id])
            ∧ (out = none
                ∨ out = (client.UpdateDashboard calls id
                    { req with Dashboard := { req.Dashboard with ID := id } }).2
                ∨ out = (client.GetDashboard (calls ++ [ApiCall.UpdateDashboard id
                    { req with Dashboard := { req.Dashboard with ID := id } }]) id).2))
      ∧ (∃ d1, resourceNewRelicDashboardDelete d (Meta.client client) calls
            = Except.ok (client.DeleteDashboard calls id, d1,
                calls ++ [ApiCall.DeleteDashboard id])) := by
  refine ⟨(Atoi d.Id).1, ?_, read_calls d client calls, ?_, ?_⟩
  · rcases Atoi_outcomes d.Id with h0 | h0 | ⟨h0, hs⟩ | ⟨h0, hs⟩
    · rw [h0] at h; exact Option.noConfusion h
    · rw [h0] at h
      simp only [Option.some.injEq] at h
      exact Or.inl ⟨h.symm, by rw [h0]⟩
    · rw [h0] at h
      simp only [Option.some.injEq] at h
      exact Or.inr (Or.inl ⟨h.symm, hs, by rw [h0]⟩)
    · rw [h0] at h
      simp only [Option.some.injEq] at h
      exact Or.inr (Or.inr ⟨h.symm, hs, by rw [h0]⟩)
  · intro req hb
    have hu := update_steps d client calls req hb
    cases hc : (client.UpdateDashboard calls (Atoi d.Id).1
        { req with Dashboard := { req.Dashboard with ID := (Atoi d.Id).1 } }).2 with
    | some err =>
      rw [hc] at hu
      exact ⟨some err, d, [], by simpa using hu, Or.inl rfl, Or.inr (Or.inl rfl)⟩
    | none =>
      rw [hc] at hu
      obtain ⟨out, d1, hr, ho⟩ := read_calls d client
        (calls ++ [ApiCall.UpdateDashboard (Atoi d.Id).1
          { req with Dashboard := { req.Dashboard with ID := (Atoi d.Id).1 } }])
      refine ⟨out, d1, [ApiCall.GetDashboard (Atoi d.Id).1], ?_, Or.inr rfl, ?_⟩
      · rw [hu]
        simpa using hr
      · rcases ho with ho | ho
        · exact Or.inl ho
        · exact Or.inr (Or.inr ho)
  · have hd := delete_steps d client calls
    cases hc : client.DeleteDashboard calls (Atoi d.Id).1 with
    | some err => rw [hc] at hd; exact ⟨d, hd⟩
    | none => rw [hc] at hd; exact ⟨d.SetId "", hd⟩

/-- Witness of the amended C9 on the id "abc". -/
theorem parse_failure_ignored_witness :
    (Atoi (opsData "abc").Id).2 = some NumError.ErrSyntax
    ∧ Atoi "" = (0, some NumError.ErrSyntax)
    ∧ Atoi "abc" = (0, some NumError.ErrSyntax)
    ∧ ∃ id : Int,
        ((NumError.ErrSyntax = NumError.ErrSyntax ∧ id = 0)
          ∨ (NumError.ErrSyntax = NumError.ErrRange
              ∧ (opsData "abc").Id.data.head? ≠ some '-' ∧ id = maxInt)
          ∨ (NumError.ErrSyntax = NumError.ErrRange
              ∧ (opsData "abc").Id.data.head? = some '-' ∧ id = minInt))
        ∧ ∃ d1, resourceNewRelicDashboardDelete (opsData "abc") (Meta.client healthyClient) []
            = Except.ok (healthyClient.DeleteDashboard [] id, d1,
                [] ++ [ApiCall.DeleteDashboard id]) :=
  ⟨by decide, by decide, by decide,
   (parse_failure_ignored (opsData "abc") healthyClient [] NumError.ErrSyntax (by decide)).imp
     (fun _ h => ⟨h.1, h.2.2.2⟩)⟩

/-! ## What `d.Get` hands to the builder -/

/-- A `TypeString` attribute always reads as a string. -/
theorem isStr_readString (default v : Value) : (readString default v).isStr = true := by
  cases v <;> rfl

/-- Indexing a map read through `readMap`: the decoded value under a
configured key, nil under any other. -/
theorem mapIndex_readMap (kvs : List (String × Value)) (key : String) :
    mapIndex (kvs.map (fun kv => (kv.1, Value.str (weakString kv.2)))) key
      = match kvs.lookup key with
        | some v => Value.str (weakString v)
        | none => Value.nil := by
  induction kvs with
  | nil => rfl
  | cons kv rest ih =>
    obtain ⟨k, v⟩ := kv
    unfold mapIndex at ih ⊢
    simp only [List.map_cons, List.lookup_cons]
    cases hk : (key == k) with
    | true => rfl
    | false => exact ih

/-- A key reads as a string from a presentation exactly when it was configured. -/
theorem isStr_mapIndex_readMap (kvs : List (String × Value)) (key : String) :
    (mapIndex (kvs.map (fun kv => (kv.1, Value.str (weakString kv.2)))) key).isStr
      = (kvs.lookup key).isSome := by
  rw [mapIndex_readMap]
  cases kvs.lookup key <;> rfl

/-- The presentation read by `d.Get` has the shape the builder expects exactly
when the configured presentation holds both keys. -/
theorem presentationShaped_readMap (v : Value) :
    presentationShaped (readMap v) = (hasKey "title" v && hasKey "notes" v) := by
  cases v with
  | map kvs => simp only [readMap, presentationShaped, hasKey, isStr_mapIndex_readMap]
  | _ => rfl

/-- A data block read by `d.Get` has the shape the builder expects exactly
when the configured block sets `nrql`. -/
theorem dataEntryShaped_readDataBlock (v : Value) :
    dataEntryShaped (readDataBlock v) = dataBlockSet v := by
  cases v with
  | map m =>
    simp only [readDataBlock, dataBlockSet]
    cases h : (mapIndex m "nrql").isSet with
    | true =>
      simp only [if_true, dataEntryShaped]
      exact isStr_readString _ _
    | false => rfl
  | _ => rfl

/-- The data list read by `d.Get` has the shape the builder expects exactly
when every configured data block sets `nrql`. -/
theorem dataListShaped_readList (v : Value) :
    dataListShaped (readList readDataBlock v) = dataBlocksSet v := by
  cases v with
  | list ds =>
    simp only [readList, dataListShaped, dataBlocksSet, List.all_map]
    congr 1
    funext x
    exact dataEntryShaped_readDataBlock x
  | _ => rfl

/-- A widget block read by `d.Get` has the shape the builder expects exactly
when the configured block is buildable. -/
theorem widgetShaped_readWidgetBlock (w : Value) :
    widgetShaped (readWidgetBlock w) = widgetBuildable w := by
  cases w with
  | map m =>
    simp only [readWidgetBlock, widgetBuildable]
    by_cases hset : ((mapIndex m "visualization").isSet || (mapIndex m "account_id").isSet
        || (mapIndex m "presentation").isSet || (mapIndex m "layout").isSet
        || (mapIndex m "data").isSet) = true
    · rw [if_pos hset]
      have h1 : mapIndex [("visualization", readString Value.nil (mapIndex m "visualization")),
          ("account_id", readInt (mapIndex m "account_id")),
          ("presentation", readMap (mapIndex m "presentation")),
          ("layout", readMap (mapIndex m "layout")),
          ("data", readList readDataBlock (mapIndex m "data"))] "presentation"
          = readMap (mapIndex m "presentation") := rfl
      have h2 : mapIndex [("visualization", readString Value.nil (mapIndex m "visualization")),
          ("account_id", readInt (mapIndex m "account_id")),
          ("presentation", readMap (mapIndex m "presentation")),
          ("layout", readMap (mapIndex m "layout")),
          ("data", readList readDataBlock (mapIndex m "data"))] "data"
          = readList readDataBlock (mapIndex m "data") := rfl
      have h3 : mapIndex [("visualization", readString Value.nil (mapIndex m "visualization")),
          ("account_id", readInt (mapIndex m "account_id")),
          ("presentation", readMap (mapIndex m "presentation")),
          ("layout", readMap (mapIndex m "layout")),
          ("data", readList readDataBlock (mapIndex m "data"))] "visualization"
          = readString Value.nil (mapIndex m "visualization") := rfl
      simp only [widgetShaped, h1, h2, h3, presentationShaped_readMap, dataListShaped_readList,
        isStr_readString, Bool.and_true]
    · rw [if_neg hset]
      have hp : (mapIndex m "presentation").isSet = false := by
        cases h : (mapIndex m "presentation").isSet with
        | false => rfl
        | true => simp [h] at hset
      have hk : hasKey "title" (mapIndex m "presentation") = false := by
        cases hv : mapIndex m "presentation" with
        | map kvs => rw [hv] at hp; exact absurd hp (by simp [Value.isSet])
        | _ => rfl
      simp only [widgetShaped, hk, Bool.false_and]
  | _ => rfl

/-- The values `d.Get` hands out have the shape the builder expects exactly
when the configuration is buildable. -/
theorem extractionShaped_eq (d : ResourceData) :
    extractionShaped d = configurationBuildable d := by
  have hw : d.Get "widgets" = readList readWidgetBlock (d.attrs "widgets") := rfl
  have h1 : d.Get "title" = readString Value.nil (d.attrs "title") := rfl
  have h2 : d.Get "icon" = readString Value.nil (d.attrs "icon") := rfl
  have h3 : d.Get "visibility" = readString Value.nil (d.attrs "visibility") := rfl
  have h4 : d.Get "editable" = readString (Value.bool true) (d.attrs "editable") := rfl
  simp only [extractionShaped, configurationBuildable, hw, h1, h2, h3, h4, isStr_readString,
    Bool.and_true]
  cases d.attrs "widgets" with
  | list ws =>
    simp only [readList, widgetListShaped, List.all_map]
    congr 1
    funext x
    exact widgetShaped_readWidgetBlock x
  | _ => rfl

/-- C10, as stated, fails: in `looseShapes` the first widget has a non-string
visualization, a non-string presentation title and a non-string nrql, the
second has no visualization and no data list, and visibility is left out;
`d.Get` decodes the ints to strings and fills what was left out, and the
builder returns a request instead of failing. -/
theorem build_named_shapes_counterexample :
    configuredShaped looseShapes = false
    ∧ widgetListShaped (looseShapes.attrs "widgets") = false
    ∧ (looseShapes.attrs "visibility").isStr = false
    ∧ buildDashboardStruct looseShapes = Except.ok looseShapesRequest
    ∧ buildDashboardStruct looseShapes ≠ Except.error Panic.typeAssertion := by
  have h : buildDashboardStruct looseShapes = Except.ok looseShapesRequest := rfl
  refine ⟨by decide, by decide, by decide, h, ?_⟩
  rw [h]
  exact fun hne => Except.noConfusion hne

/-- C10, amended: `buildDashboardStruct` fails with a type-assertion panic,
returning no request, exactly when some configured widget block has no
presentation map holding both the "title" and the "notes" key or holds a data
block that sets no nrql; on every other configuration it returns a request. -/
theorem buildDashboardStruct_dichotomy (d : ResourceData) :
    ((∃ req, buildDashboardStruct d = Except.ok req) ↔ configurationBuildable d = true)
    ∧ (buildDashboardStruct d = Except.error Panic.typeAssertion
        ↔ configurationBuildable d = false) := by
  rw [← extractionShaped_eq]
  rcases buildDashboardStruct_cases d with ⟨hs, req, hreq⟩ | ⟨hs, herr⟩
  · refine ⟨⟨fun _ => hs, fun _ => ⟨req, hreq⟩⟩, ⟨fun h => ?_, fun h => ?_⟩⟩
    · rw [hreq] at h; exact Except.noConfusion h
    · rw [hs] at h; exact Bool.noConfusion h
  · refine ⟨⟨fun h => ?_, fun h => ?_⟩, ⟨fun _ => hs, fun _ => herr⟩⟩
    · obtain ⟨req, hreq⟩ := h
      rw [herr] at hreq; exact Except.noConfusion hreq
    · rw [hs] at h; exact Bool.noConfusion h

/-- The configurations on which the builder does panic, each evaluated: a
presentation without "title", one without "notes", a widget with no
presentation map, a data block that sets no nrql, a widget block that sets
nothing. -/
theorem buildDashboardStruct_panic_shapes :
    buildDashboardStruct (opsWith [sampleWidget "billboard" [("notes", Value.str "n")] ["q"]])
        = Except.error Panic.typeAssertion
    ∧ buildDashboardStruct (opsWith [sampleWidget "billboard" [("title", Value.str "t")] ["q"]])
        = Except.error Panic.typeAssertion
    ∧ buildDashboardStruct
          (opsWith [Value.map [("visualization", Value.str "billboard"), ("data", Value.list [])]])
        = Except.error Panic.typeAssertion
    ∧ buildDashboardStruct
          (opsWith [Value.map [("visualization", Value.str "billboard"),
            ("presentation", Value.map [("title", Value.str "t"), ("notes", Value.str "n")]),
            ("data", Value.list [Value.map []])]])
        = Except.error Panic.typeAssertion
    ∧ buildDashboardStruct (opsWith [Value.map []]) = Except.error Panic.typeAssertion :=
  ⟨rfl, rfl, rfl, rfl, rfl⟩

end Newrelic
